import Mathlib

/-!
Verification development for the avolo-cam camera controller
(`src/tauri-controller/src-tauri/src`): a shallow embedding of the
camera client's WebSocket reconnection loop (`camera_client.rs`) and of
the fleet manager's registry, group-dispatch, profile and
persisted-settings operations (`camera_manager.rs`), with theorems about
their behaviour.

Floating-point fields (`f64` in the Rust source) are modelled as `Int`:
in the code covered here they are only stored, copied and compared, never
used arithmetically.
-/

namespace AvoloCam

/-! ## Data model (models.rs) -/

inductive NdiState where
  | streaming
  | idle
deriving DecidableEq, Repr

inductive WhiteBalanceMode where
  | auto
  | manual
deriving DecidableEq, Repr

inductive FocusMode where
  | auto
  | manual
deriving DecidableEq, Repr

inductive ExposureMode where
  | auto
  | manual
deriving DecidableEq, Repr

inductive ChargingState where
  | charging
  | full
  | unplugged
deriving DecidableEq, Repr

structure CurrentSettings where
  resolution : String
  fps : Nat
  bitrate : Nat
  codec : String
  wb_mode : WhiteBalanceMode
  wb_kelvin : Option Nat
  wb_tint : Option Int
  iso_mode : ExposureMode
  iso : Nat
  shutter_mode : ExposureMode
  shutter_s : Int
  focus_mode : FocusMode
  zoom_factor : Int
  camera_position : String
  lens : String
deriving DecidableEq, Repr

structure Telemetry where
  fps : Int
  bitrate : Nat
  battery : Int
  temp_c : Int
  wifi_rssi : Int
  cpu_usage : Int
  queue_ms : Option Nat
  dropped_frames : Option Nat
  charging_state : Option ChargingState
deriving DecidableEq, Repr

structure Capability where
  resolution : String
  fps : List Nat
  codec : List String
  lens : Option String
  max_zoom : Option Int
deriving DecidableEq, Repr

structure StatusResponse where
  «alias» : String
  ndi_state : NdiState
  current : CurrentSettings
  telemetry : Telemetry
  capabilities : List Capability
deriving DecidableEq, Repr

structure StreamStartRequest where
  resolution : String
  framerate : Nat
  bitrate : Nat
  codec : String
deriving DecidableEq, Repr

structure CameraSettingsRequest where
  wb_mode : Option WhiteBalanceMode
  wb_kelvin : Option Nat
  wb_tint : Option Int
  iso_mode : Option ExposureMode
  iso : Option Nat
  shutter_mode : Option ExposureMode
  shutter_s : Option Int
  focus_mode : Option FocusMode
  zoom_factor : Option Int
  lens : Option String
  camera_position : Option String
  orientation_lock : Option String
deriving DecidableEq, Repr

structure CameraProfile where
  name : String
  settings : CameraSettingsRequest
deriving DecidableEq, Repr

inductive ConnectionState where
  | connected
  | disconnected
  | connecting
  | error
deriving DecidableEq, Repr

structure CameraInfo where
  id : String
  «alias» : String
  ip : String
  port : Nat
  token : String
  status : Option StatusResponse
  connection_state : ConnectionState
deriving DecidableEq, Repr

structure GroupCommandResult where
  camera_id : String
  success : Bool
  error : Option String
deriving DecidableEq, Repr

/-! ## Camera client constants (camera_client.rs)

Durations are modelled in whole seconds. -/

def HTTP_TIMEOUT : Nat := 5

def WS_RECONNECT_DELAY : Nat := 2

def MAX_RECONNECT_ATTEMPTS : Nat := 1000

def MAX_RECONNECT_DELAY : Nat := 30

/-! ## WebSocket session (connect_websocket_internal)

A session attempt consists of the handshake outcome (`connect_async`)
and, when the handshake succeeds, the sequence of events the read loop
observes. `connect_websocket_internal` returns `Ok` when the message
loop ends on a server close or stream exhaustion, and `Err` when the
handshake fails or the socket reports an error mid-session. -/

inductive WsEvent where
  /-- An inbound text frame; the flag records whether it parses as telemetry. -/
  | text (parsesOk : Bool)
  /-- A server-initiated close frame. -/
  | close
  /-- A ping frame (pong handled by the library). -/
  | ping
  /-- Any other frame kind (binary, pong, ...). -/
  | other
  /-- A socket error surfaced by the read stream. -/
  | socketError
deriving DecidableEq, Repr

/-- The read loop of `connect_websocket_internal`: returns `true` (Ok) when the
stream is exhausted or the server closes, `false` (Err) on a socket error.
Text frames never terminate the loop, whether they parse or not. -/
def wsReadLoop : List WsEvent → Bool
  | [] => true
  | WsEvent.text _ :: rest => wsReadLoop rest
  | WsEvent.close :: _ => true
  | WsEvent.ping :: rest => wsReadLoop rest
  | WsEvent.other :: rest => wsReadLoop rest
  | WsEvent.socketError :: _ => false

/-- Number of times the telemetry callback is invoked during a session's read
loop: once per text frame that parses, stopping at a close or socket error. -/
def wsCallbackCount : List WsEvent → Nat
  | [] => 0
  | WsEvent.text true :: rest => wsCallbackCount rest + 1
  | WsEvent.text false :: rest => wsCallbackCount rest
  | WsEvent.close :: _ => 0
  | WsEvent.ping :: rest => wsCallbackCount rest
  | WsEvent.other :: rest => wsCallbackCount rest
  | WsEvent.socketError :: _ => 0

/-- One iteration's worth of external input to the reconnection loop:
the session attempt and the two stop-channel polls. -/
structure SessionAttempt where
  /-- Did `connect_async` succeed (WebSocket handshake)? -/
  handshakeOk : Bool
  /-- Events observed by the read loop (only reached when the handshake succeeded). -/
  events : List WsEvent
  /-- Was a stop signal pending at the check before the backoff sleep? -/
  stopBeforeSleep : Bool
  /-- Was a stop signal pending at the check after the backoff sleep? -/
  stopAfterSleep : Bool
deriving DecidableEq, Repr

/-- Result of `connect_websocket_internal` for one attempt: `true` iff the
handshake succeeded and the read loop ended normally. -/
def sessionOk (a : SessionAttempt) : Bool :=
  a.handshakeOk && wsReadLoop a.events

/-! ## Reconnection loop state machine (connect_websocket's spawned task) -/

structure WsLoopState where
  reconnect_attempts : Nat
  first_connection : Bool
  /-- The client's shared `connected` flag as the task last wrote it. -/
  connected : Bool
  /-- Has the loop terminated (`break`)? -/
  done : Bool
deriving DecidableEq, Repr

/-- Loop state when the spawned task starts: counter 0, first connection
pending, `connected` still `false` from `CameraClient::new`. -/
def wsInit : WsLoopState :=
  { reconnect_attempts := 0, first_connection := true, connected := false, done := false }

/-- Exponential backoff with cap, exactly as computed in the loop body:
`2^min(attempts, 5)` times the base delay, capped at the maximum delay. -/
def backoffDelay (attempts : Nat) : Nat :=
  let backoff_multiplier := 2 ^ (min attempts 5)
  let calculated_delay := WS_RECONNECT_DELAY * backoff_multiplier
  min calculated_delay MAX_RECONNECT_DELAY

/-- The tail of the loop body shared by both match arms: poll the stop channel,
sleep `backoffDelay`, poll again; a pending signal at either poll clears the
connected flag and terminates the loop. -/
def wsAfterMatch (s : WsLoopState) (a : SessionAttempt) : WsLoopState :=
  if a.stopBeforeSleep then { s with connected := false, done := true }
  else if a.stopAfterSleep then { s with connected := false, done := true }
  else s

/-- One full iteration of the reconnection loop, as written in
`connect_websocket`: on `Ok` from the session, set the connected flag, zero the
counter; on `Err`, clear the flag, increment the counter and stop for good once
it reaches `MAX_RECONNECT_ATTEMPTS`; then the stop checks around the sleep. -/
def wsStep (s : WsLoopState) (a : SessionAttempt) : WsLoopState :=
  if s.done then s
  else if sessionOk a then
    wsAfterMatch { s with connected := true, reconnect_attempts := 0,
                          first_connection := false } a
  else
    let s1 := { s with connected := false, reconnect_attempts := s.reconnect_attempts + 1 }
    if MAX_RECONNECT_ATTEMPTS ≤ s1.reconnect_attempts then { s1 with done := true }
    else wsAfterMatch s1 a

/-- Run the reconnection loop over a sequence of session attempts. -/
def wsRun (s : WsLoopState) : List SessionAttempt → WsLoopState
  | [] => s
  | a :: rest => wsRun (wsStep s a) rest

/-- Model of `disconnect_websocket`: clears the connected flag (and signals the stop
channel, which the loop observes as a later `stopBeforeSleep`/`stopAfterSleep`). -/
def disconnect_websocket (s : WsLoopState) : WsLoopState :=
  { s with connected := false }

/-! ## Camera client handle (camera_client.rs) -/

structure CameraClientState where
  base_url : String
  token : String
  /-- Is `ws_stop_tx` a `Some` (stop channel installed)? -/
  ws_stop_tx : Bool
  connected : Bool
deriving DecidableEq, Repr

def CameraClient.new (ip : String) (port : Nat) (token : String) : CameraClientState :=
  { base_url := "http://" ++ ip ++ ":" ++ toString port,
    token := token, ws_stop_tx := false, connected := false }

/-- The synchronous body of `connect_websocket`: install a stop channel, spawn
the reconnection task, return. Every path through the Rust function ends in
`Ok(())`; no network traffic happens before it returns. -/
def connect_websocket (c : CameraClientState) : CameraClientState × Except String Unit :=
  ({ c with ws_stop_tx := true }, Except.ok ())

/-! ## Fleet manager state (camera_manager.rs)

The `HashMap`s are modelled as association lists with unique keys; key
order stands in for the map's (unspecified) iteration order. Network
outcomes are oracles passed in as arguments: a status probe is an
`Except String StatusResponse`, a fan-out operation's outcome for the
`i`-th spawned task is `op i` (`none` = success, `some e` = the error
text), and `crash i` tells whether the `i`-th spawned task panicked so
that joining it fails. -/

def MAX_CONCURRENT_OPERATIONS : Nat := 10

structure Camera where
  info : CameraInfo
  client : CameraClientState
deriving DecidableEq, Repr

/-- The per-camera persisted settings pair: (stream settings, camera settings). -/
abbrev PersistedPair := Option StreamStartRequest × Option CameraSettingsRequest

structure ManagerState where
  cameras : List (String × Camera)
  persisted_settings : List (String × PersistedPair)
deriving DecidableEq, Repr

/-- Model of `HashMap::get`. -/
def lookupEntry {α : Type} : List (String × α) → String → Option α
  | [], _ => none
  | (k, v) :: rest, key => if k = key then some v else lookupEntry rest key

/-- Model of `HashMap::insert`: replace the value under an existing key, else add the
binding. -/
def insertEntry {α : Type} : List (String × α) → String → α → List (String × α)
  | [], key, v => [(key, v)]
  | (k, w) :: rest, key, v =>
    if k = key then (k, v) :: rest else (k, w) :: insertEntry rest key v

/-- Model of `CameraManager::add_camera_manual`: derive the id from the address, build a
client, probe the status (the `?` returns early, leaving the manager
untouched), connect the WebSocket, then store the entry. The persistence write
that follows is best-effort and does not change the in-memory state. -/
def add_camera_manual (m : ManagerState) (ip : String) (port : Nat) (token : String)
    (probe : Except String StatusResponse) : ManagerState × Except String String :=
  let id := ip ++ ":" ++ toString port
  let client := CameraClient.new ip port token
  match probe with
  | Except.error e => (m, Except.error ("Failed to connect to camera: " ++ e))
  | Except.ok status =>
    match connect_websocket client with
    | (_, Except.error e) => (m, Except.error ("Failed to connect WebSocket: " ++ e))
    | (client1, Except.ok _) =>
      let info : CameraInfo :=
        { id := id, «alias» := status.«alias», ip := ip, port := port, token := token,
          status := some status, connection_state := ConnectionState.connected }
      ({ m with cameras := insertEntry m.cameras id { info := info, client := client1 } },
       Except.ok id)

/-- Model of `CameraManager::get_all_cameras`: for each registry entry, clone its info,
probe the camera; on success overwrite the clone's status and mark it
`Connected`, on failure mark the clone `Error` and keep its existing status.
Only the clones in the returned vector are touched. -/
def get_all_cameras (m : ManagerState) (probe : String → Except String StatusResponse) :
    List CameraInfo :=
  m.cameras.map (fun entry =>
    let info := entry.2.info
    match probe entry.1 with
    | Except.ok status =>
      { info with status := some status, connection_state := ConnectionState.connected }
    | Except.error _ =>
      { info with connection_state := ConnectionState.error })

/-- The function `get_all_cameras` as a call on the manager: the receiver is a shared
reference (`&self`), and the body never writes through it, so the manager
state passes through unchanged. -/
def get_all_cameras_call (m : ManagerState) (probe : String → Except String StatusResponse) :
    ManagerState × List CameraInfo :=
  (m, get_all_cameras m probe)

/-! ## Group dispatch (execute_group_operation) -/

/-- The tasks spawned by `execute_group_operation`, in spawn order (`i` is the
task's index): an unregistered id gets an immediate not-found failure task, a
registered id gets a worker task whose outcome the oracle `op` supplies. -/
def groupTasks (m : ManagerState) (op : Nat → Option String) :
    List String → Nat → List GroupCommandResult
  | [], _ => []
  | camera_id :: rest, i =>
    (match lookupEntry m.cameras camera_id with
     | none =>
       { camera_id := camera_id, success := false,
         error := some ("Camera not found: " ++ camera_id) }
     | some _ =>
       { camera_id := camera_id, success := (op i).isNone, error := op i })
    :: groupTasks m op rest (i + 1)

/-- The join loop at the end of `execute_group_operation`: tasks are awaited in
spawn order; a task whose join fails (the worker itself panicked) is logged and
its result omitted. -/
def collectResults (crash : Nat → Bool) : List GroupCommandResult → Nat → List GroupCommandResult
  | [], _ => []
  | t :: ts, i =>
    if crash i then collectResults crash ts (i + 1)
    else t :: collectResults crash ts (i + 1)

/-- Model of `CameraManager::execute_group_operation`: spawn one task per requested id,
await them all, and return `Ok` with the collected results on every path. -/
def execute_group_operation (m : ManagerState) (op : Nat → Option String)
    (crash : Nat → Bool) (camera_ids : List String) :
    Except String (List GroupCommandResult) :=
  Except.ok (collectResults crash (groupTasks m op camera_ids 0) 0)

/-! ## Profiles (save_profile / delete_profile)

The profile store is the JSON file's content, loaded before and written
after each operation; it is modelled by the list of profiles it holds. -/

/-- The `iter_mut().find(...)` update in `save_profile`: overwrite the settings
of the first profile bearing the name, leaving the rest of the list alone. -/
def updateFirstProfile : List CameraProfile → String → CameraSettingsRequest → List CameraProfile
  | [], _, _ => []
  | p :: ps, name, settings =>
    if p.name == name then { p with settings := settings } :: ps
    else p :: updateFirstProfile ps name settings

/-- Model of `CameraManager::save_profile` on the loaded store: update in place when a
profile with the name exists, else push a new profile at the end. -/
def save_profile (profiles : List CameraProfile) (name : String)
    (settings : CameraSettingsRequest) : List CameraProfile :=
  if profiles.any (fun p => p.name == name) then
    updateFirstProfile profiles name settings
  else
    profiles ++ [{ name := name, settings := settings }]

/-- Model of `CameraManager::delete_profile` on the loaded store: `retain` everything
with a different name; if nothing was removed, fail with not-found. -/
def delete_profile (profiles : List CameraProfile) (name : String) :
    Except String (List CameraProfile) :=
  let remaining := profiles.filter (fun p => !(p.name == name))
  if remaining.length = profiles.length then
    Except.error ("Profile not found: " ++ name)
  else
    Except.ok remaining

/-- Number of profiles in the store bearing a given name. -/
def countName (profiles : List CameraProfile) (name : String) : Nat :=
  (profiles.filter (fun p => p.name == name)).length

/-! ## Persisted settings and the group mutators -/

/-- The `entry(id).and_modify(...).or_insert(...)` pattern for the stream
component: keep the camera component when the key exists, else insert
`(Some request, None)`. -/
def setStreamSetting : List (String × PersistedPair) → String → StreamStartRequest →
    List (String × PersistedPair)
  | [], camera_id, request => [(camera_id, (some request, none))]
  | (k, pair) :: rest, camera_id, request =>
    if k = camera_id then (k, (some request, pair.2)) :: rest
    else (k, pair) :: setStreamSetting rest camera_id request

/-- The `entry(id).and_modify(...).or_insert(...)` pattern for the camera
component: keep the stream component when the key exists, else insert
`(None, Some settings)`. -/
def setCameraSetting : List (String × PersistedPair) → String → CameraSettingsRequest →
    List (String × PersistedPair)
  | [], camera_id, settings => [(camera_id, (none, some settings))]
  | (k, pair) :: rest, camera_id, settings =>
    if k = camera_id then (k, (pair.1, some settings)) :: rest
    else (k, pair) :: setCameraSetting rest camera_id settings

/-- Model of `CameraManager::group_start_stream`: record the requested stream settings
under every requested id first, then dispatch; the trailing disk write does not
change the in-memory state. -/
def group_start_stream (m : ManagerState) (camera_ids : List String)
    (request : StreamStartRequest) (op : Nat → Option String) (crash : Nat → Bool) :
    ManagerState × Except String (List GroupCommandResult) :=
  let ps1 := camera_ids.foldl
    (fun ps camera_id => setStreamSetting ps camera_id request) m.persisted_settings
  let m1 := { m with persisted_settings := ps1 }
  (m1, execute_group_operation m1 op crash camera_ids)

/-- Model of `CameraManager::group_update_settings`: record the requested camera
settings under every requested id first, then dispatch. -/
def group_update_settings (m : ManagerState) (camera_ids : List String)
    (settings : CameraSettingsRequest) (op : Nat → Option String) (crash : Nat → Bool) :
    ManagerState × Except String (List GroupCommandResult) :=
  let ps1 := camera_ids.foldl
    (fun ps camera_id => setCameraSetting ps camera_id settings) m.persisted_settings
  let m1 := { m with persisted_settings := ps1 }
  (m1, execute_group_operation m1 op crash camera_ids)

/-- Model of `CameraManager::get_persisted_settings`. -/
def get_persisted_settings (m : ManagerState) (camera_id : String) : Option PersistedPair :=
  lookupEntry m.persisted_settings camera_id

/-! ## Concrete fixtures, used to instantiate theorems with hypotheses -/

def exCurrent : CurrentSettings :=
  { resolution := "1920x1080", fps := 30, bitrate := 10000000, codec := "h264",
    wb_mode := WhiteBalanceMode.auto, wb_kelvin := none, wb_tint := none,
    iso_mode := ExposureMode.auto, iso := 100, shutter_mode := ExposureMode.auto,
    shutter_s := 1, focus_mode := FocusMode.auto, zoom_factor := 1,
    camera_position := "back", lens := "wide" }

def exTelemetry : Telemetry :=
  { fps := 30, bitrate := 10000000, battery := 80, temp_c := 30, wifi_rssi := -50,
    cpu_usage := 10, queue_ms := none, dropped_frames := none, charging_state := none }

def exStatus : StatusResponse :=
  { «alias» := "Cam1", ndi_state := NdiState.idle, current := exCurrent,
    telemetry := exTelemetry, capabilities := [] }

def exStream : StreamStartRequest :=
  { resolution := "1920x1080", framerate := 30, bitrate := 10000000, codec := "h264" }

def exSettingsA : CameraSettingsRequest :=
  { wb_mode := some WhiteBalanceMode.auto, wb_kelvin := none, wb_tint := none,
    iso_mode := none, iso := none, shutter_mode := none, shutter_s := none,
    focus_mode := none, zoom_factor := none, lens := none, camera_position := none,
    orientation_lock := none }

def exSettingsB : CameraSettingsRequest :=
  { wb_mode := some WhiteBalanceMode.manual, wb_kelvin := some 5600, wb_tint := none,
    iso_mode := none, iso := some 200, shutter_mode := none, shutter_s := none,
    focus_mode := none, zoom_factor := none, lens := none, camera_position := none,
    orientation_lock := none }

def exInfo : CameraInfo :=
  { id := "10.0.0.1:80", «alias» := "Cam1", ip := "10.0.0.1", port := 80, token := "",
    status := some exStatus, connection_state := ConnectionState.connected }

def exCamera : Camera :=
  { info := exInfo, client := CameraClient.new "10.0.0.1" 80 "" }

def exManagerEmpty : ManagerState :=
  { cameras := [], persisted_settings := [] }

def exManagerOne : ManagerState :=
  { cameras := [("10.0.0.1:80", exCamera)], persisted_settings := [] }

/-! # Theorems

## Reconnection loop: termination clears the flag -/

theorem wsAfterMatch_done_not_connected (s : WsLoopState) (a : SessionAttempt)
    (hs : s.done = false) :
    (wsAfterMatch s a).done = true → (wsAfterMatch s a).connected = false := by
  unfold wsAfterMatch
  split
  · intro _; rfl
  · split
    · intro _; rfl
    · intro hd; rw [hs] at hd; exact absurd hd (by simp)

theorem wsStep_done_not_connected (s : WsLoopState) (a : SessionAttempt)
    (ih : s.done = true → s.connected = false) :
    (wsStep s a).done = true → (wsStep s a).connected = false := by
  unfold wsStep
  by_cases hd : s.done = true
  · simp only [hd, if_true]
    exact fun _ => ih hd
  · have hd' : s.done = false := by simpa using hd
    simp only [hd', Bool.false_eq_true, if_false]
    split
    · exact wsAfterMatch_done_not_connected _ a rfl
    · split
      · intro _; rfl
      · exact wsAfterMatch_done_not_connected _ a rfl

/-- Whenever the reconnection loop has terminated, the connected flag is
`false` (this half of the spec's invariant does hold on the code). -/
theorem wsRun_done_not_connected (l : List SessionAttempt) (s : WsLoopState)
    (ih : s.done = true → s.connected = false) :
    (wsRun s l).done = true → (wsRun s l).connected = false := by
  induction l generalizing s with
  | nil => exact ih
  | cons a rest IH => exact IH (wsStep s a) (wsStep_done_not_connected s a ih)

/-- Claim C1, evaluated at the failing input (code bug): after one session that
the server closes cleanly, the loop is between sessions — not terminated, no
session in flight, about to back off and reconnect — yet the shared `connected`
flag reads `true`: the `Ok` arm of the loop writes `true` at the very moment
the session has ended. (The other half of the claim holds: a terminated loop
always leaves the flag `false`, see `wsRun_done_not_connected`.) -/
theorem c1_clean_close_leaves_connected_true_between_sessions :
    wsRun wsInit
      [{ handshakeOk := true, events := [WsEvent.close],
         stopBeforeSleep := false, stopAfterSleep := false }] =
      { reconnect_attempts := 0, first_connection := false,
        connected := true, done := false } := by
  decide

/-! ## Reconnection counter (C3) -/

/-- Claim C3 is false on the code: if a handshake succeeding meant the counter
were reset to 0 on entering Connected, then after one loop iteration with a
successful handshake the counter could be at most 1 (the reset, plus at most
one increment for that session's abrupt drop). But from the reachable state
after one failed handshake (counter 1), a session whose handshake succeeds and
then drops abruptly leaves the counter at 2: `connect_websocket_internal`
returns `Err` for the whole session, and only its `Ok` (session ended
normally) resets the counter. -/
theorem c3_counterexample :
    ¬ (∀ (l : List SessionAttempt) (a : SessionAttempt),
        (wsRun wsInit l).done = false → a.handshakeOk = true →
        (wsStep (wsRun wsInit l) a).reconnect_attempts ≤ 1) := by
  intro h
  have hc := h
    [{ handshakeOk := false, events := [], stopBeforeSleep := false, stopAfterSleep := false }]
    { handshakeOk := true, events := [WsEvent.socketError],
      stopBeforeSleep := false, stopAfterSleep := false }
    (by decide) (by decide)
  exact absurd hc (by decide)

/-- Claim C3 as amended: the attempt counter resets to 0 exactly when
`connect_websocket_internal` returns `Ok` — a session whose handshake succeeded
and whose read loop ended normally (server close or stream end). A successful
handshake whose session then drops abruptly does not reset the counter; the
counter increments, exactly as on a failure to establish the connection. -/
theorem c3_counter_reset_on_clean_session (s : WsLoopState) (a : SessionAttempt)
    (h : s.done = false) :
    (wsStep s a).reconnect_attempts =
      (if sessionOk a then 0 else s.reconnect_attempts + 1) := by
  unfold wsStep wsAfterMatch
  simp only [h, Bool.false_eq_true, if_false]
  split
  · split
    · rfl
    · split
      · rfl
      · rfl
  · split
    · rfl
    · split
      · rfl
      · split
        · rfl
        · rfl

theorem c3_counter_reset_on_clean_session_witness :
    (wsStep wsInit
      { handshakeOk := true, events := [WsEvent.socketError],
        stopBeforeSleep := false, stopAfterSleep := false }).reconnect_attempts =
      (if sessionOk { handshakeOk := true, events := [WsEvent.socketError],
                      stopBeforeSleep := false, stopAfterSleep := false }
       then 0 else wsInit.reconnect_attempts + 1) :=
  c3_counter_reset_on_clean_session wsInit
    { handshakeOk := true, events := [WsEvent.socketError],
      stopBeforeSleep := false, stopAfterSleep := false } rfl

/-! ## Backoff delay (C4) -/

/-- Claim C4: the backoff delay for attempt count `n` is
`min(base * 2^min(n,5), max_delay)` with a 2-second base and a 30-second cap;
the delay sequence is non-decreasing in `n` and never exceeds 30 seconds. -/
theorem c4_backoff_delay (n : Nat) :
    backoffDelay n = min (2 * 2 ^ (min n 5)) 30
    ∧ backoffDelay n ≤ backoffDelay (n + 1)
    ∧ backoffDelay n ≤ 30 := by
  refine ⟨rfl, ?_, ?_⟩
  · have h1 : min n 5 ≤ min (n + 1) 5 := min_le_min (Nat.le_succ n) le_rfl
    have h2 : (2 : Nat) ^ (min n 5) ≤ 2 ^ (min (n + 1) 5) :=
      Nat.pow_le_pow_right (by norm_num) h1
    have h3 : WS_RECONNECT_DELAY * 2 ^ (min n 5) ≤ WS_RECONNECT_DELAY * 2 ^ (min (n + 1) 5) :=
      Nat.mul_le_mul_left _ h2
    exact min_le_min h3 le_rfl
  · exact min_le_right _ _

/-! ## Registration atomicity (C5) and infallible WebSocket connect (C8) -/

/-- Claim C5: when the initial status probe fails, `add_camera_manual` returns
an error and the manager state — registry included — is exactly the state
before the call: the early return on the probe happens before any mutation. -/
theorem c5_add_device_probe_failure_atomic (m : ManagerState) (ip : String) (port : Nat)
    (token : String) (probe : Except String StatusResponse) (e : String)
    (h : probe = Except.error e) :
    add_camera_manual m ip port token probe =
      (m, Except.error ("Failed to connect to camera: " ++ e)) := by
  subst h; rfl

theorem c5_add_device_probe_failure_atomic_witness :
    add_camera_manual exManagerEmpty "10.0.0.1" 80 "" (Except.error "timeout") =
      (exManagerEmpty, Except.error ("Failed to connect to camera: " ++ "timeout")) :=
  c5_add_device_probe_failure_atomic exManagerEmpty "10.0.0.1" 80 ""
    (Except.error "timeout") "timeout" rfl

/-- Claim C8: `connect_websocket` returns `Ok(())` for every client — it only
installs the stop channel and spawns the background task before returning — so
in `add_camera_manual` the branch handling a WebSocket-connect failure is
unreachable: the call's outcome is decided by the status probe alone (success
returns the id derived from the address, failure returns the probe's error). -/
theorem c8_connect_websocket_infallible (c : CameraClientState) (m : ManagerState)
    (ip : String) (port : Nat) (token : String) (probe : Except String StatusResponse) :
    (connect_websocket c).2 = Except.ok ()
    ∧ (∀ st, probe = Except.ok st →
        (add_camera_manual m ip port token probe).2 =
          Except.ok (ip ++ ":" ++ toString port))
    ∧ (∀ e, probe = Except.error e →
        (add_camera_manual m ip port token probe).2 =
          Except.error ("Failed to connect to camera: " ++ e)) := by
  refine ⟨rfl, ?_, ?_⟩
  · intro st hst; subst hst; rfl
  · intro e he; subst he; rfl

theorem c8_connect_websocket_infallible_witness :
    (add_camera_manual exManagerEmpty "10.0.0.1" 80 "" (Except.ok exStatus)).2 =
      Except.ok ("10.0.0.1" ++ ":" ++ toString 80) :=
  (c8_connect_websocket_infallible exCamera.client exManagerEmpty "10.0.0.1" 80 ""
    (Except.ok exStatus)).2.1 exStatus rfl

/-! ## Listing does not mutate the registry (C10) -/

/-- Claim C10: `get_all_cameras` takes the manager by shared reference and all
its writes go to the per-entry clones in the returned vector, so the manager
state — the stored infos, aliases, status snapshots and connection states —
passes through the call unchanged; the fresh probe results live only in the
returned snapshot. -/
theorem c10_get_all_cameras_no_mutation (m : ManagerState)
    (probe : String → Except String StatusResponse) :
    (get_all_cameras_call m probe).1 = m
    ∧ (get_all_cameras_call m probe).2 = get_all_cameras m probe :=
  ⟨rfl, rfl⟩

/-! ## Group dispatch (C2) -/

theorem collectResults_no_crash (crash : Nat → Bool) (hc : ∀ i, crash i = false) :
    ∀ (ts : List GroupCommandResult) (i : Nat), collectResults crash ts i = ts := by
  intro ts
  induction ts with
  | nil => intro i; rfl
  | cons t ts IH =>
    intro i
    unfold collectResults
    rw [hc i]
    simp only [Bool.false_eq_true, if_false]
    rw [IH (i + 1)]

theorem groupTasks_map_camera_id (m : ManagerState) (op : Nat → Option String) :
    ∀ (ids : List String) (i : Nat),
      (groupTasks m op ids i).map (fun r => r.camera_id) = ids := by
  intro ids
  induction ids with
  | nil => intro i; rfl
  | cons camera_id rest IH =>
    intro i
    unfold groupTasks
    cases lookupEntry m.cameras camera_id <;> simp [IH (i + 1)]

theorem groupTasks_not_found (m : ManagerState) (op : Nat → Option String) :
    ∀ (ids : List String) (i : Nat) (r : GroupCommandResult),
      r ∈ groupTasks m op ids i → lookupEntry m.cameras r.camera_id = none →
      r.success = false ∧ r.error = some ("Camera not found: " ++ r.camera_id) := by
  intro ids
  induction ids with
  | nil => intro i r hr; simp [groupTasks] at hr
  | cons camera_id rest IH =>
    intro i r hr hnone
    unfold groupTasks at hr
    cases hl : lookupEntry m.cameras camera_id with
    | none =>
      rw [hl] at hr
      rcases List.mem_cons.mp hr with h | h
      · subst h; exact ⟨rfl, rfl⟩
      · exact IH (i + 1) r h hnone
    | some cam =>
      rw [hl] at hr
      rcases List.mem_cons.mp hr with h | h
      · subst h; exact absurd hnone (by simp [hl])
      · exact IH (i + 1) r h hnone

/-- Claim C2: when no worker task crashes, `execute_group_operation` returns
`Ok` with exactly one result per input identifier, in input order; an
identifier that does not resolve to a registered camera yields a not-found
failure result under that identifier, and the call as a whole still succeeds. -/
theorem c2_group_dispatch_one_result_per_id (m : ManagerState) (op : Nat → Option String)
    (crash : Nat → Bool) (camera_ids : List String) (hc : ∀ i, crash i = false) :
    ∃ rs, execute_group_operation m op crash camera_ids = Except.ok rs
      ∧ rs.map (fun r => r.camera_id) = camera_ids
      ∧ rs.length = camera_ids.length
      ∧ ∀ r ∈ rs, lookupEntry m.cameras r.camera_id = none →
          r.success = false ∧ r.error = some ("Camera not found: " ++ r.camera_id) := by
  refine ⟨groupTasks m op camera_ids 0, ?_, groupTasks_map_camera_id m op camera_ids 0,
    ?_, fun r hr => groupTasks_not_found m op camera_ids 0 r hr⟩
  · unfold execute_group_operation
    rw [collectResults_no_crash crash hc]
  · have hlen := congrArg List.length (groupTasks_map_camera_id m op camera_ids 0)
    simpa [List.length_map] using hlen

theorem c2_group_dispatch_one_result_per_id_witness :
    ∃ rs, execute_group_operation exManagerOne (fun _ => none) (fun _ => false)
        ["10.0.0.1:80", "missing"] = Except.ok rs
      ∧ rs.map (fun r => r.camera_id) = ["10.0.0.1:80", "missing"]
      ∧ rs.length = (["10.0.0.1:80", "missing"] : List String).length
      ∧ ∀ r ∈ rs, lookupEntry exManagerOne.cameras r.camera_id = none →
          r.success = false ∧ r.error = some ("Camera not found: " ++ r.camera_id) :=
  c2_group_dispatch_one_result_per_id exManagerOne (fun _ => none) (fun _ => false)
    ["10.0.0.1:80", "missing"] (fun _ => rfl)

/-! ## Fresh-status listing (C6) -/

def exProbeFail : String → Except String StatusResponse :=
  fun _ => Except.error "down"

/-- Claim C6: in the vector returned by `get_all_cameras`, the entry for a
registered camera whose fresh probe fails is its stored info with the
connection state overwritten to `Error` — the previously known status snapshot
(possibly `none`) is retained, not dropped; when the probe succeeds, the entry
carries the fresh status and the `Connected` state. -/
theorem c6_list_devices_status (m : ManagerState)
    (probe : String → Except String StatusResponse) (i : Nat)
    (h : i < m.cameras.length) (h2 : i < (get_all_cameras m probe).length) :
    (∀ e, probe (m.cameras.get ⟨i, h⟩).1 = Except.error e →
      (get_all_cameras m probe).get ⟨i, h2⟩ =
        { (m.cameras.get ⟨i, h⟩).2.info with connection_state := ConnectionState.error })
    ∧ (∀ st, probe (m.cameras.get ⟨i, h⟩).1 = Except.ok st →
      (get_all_cameras m probe).get ⟨i, h2⟩ =
        { (m.cameras.get ⟨i, h⟩).2.info with
            status := some st, connection_state := ConnectionState.connected }) := by
  have key : (get_all_cameras m probe).get ⟨i, h2⟩ =
      (match probe (m.cameras.get ⟨i, h⟩).1 with
       | Except.ok status =>
         { (m.cameras.get ⟨i, h⟩).2.info with
             status := some status, connection_state := ConnectionState.connected }
       | Except.error _ =>
         { (m.cameras.get ⟨i, h⟩).2.info with
             connection_state := ConnectionState.error }) := by
    rw [List.get_eq_getElem, List.get_eq_getElem]
    unfold get_all_cameras
    rw [List.getElem_map]
  constructor
  · intro e he
    rw [key, he]
  · intro st hst
    rw [key, hst]

theorem c6_list_devices_status_witness :
    (get_all_cameras exManagerOne exProbeFail).get ⟨0, by decide⟩ =
      { (exManagerOne.cameras.get ⟨0, by decide⟩).2.info with
        connection_state := ConnectionState.error } :=
  (c6_list_devices_status exManagerOne exProbeFail 0 (by decide) (by decide)).1 "down" rfl

/-! ## Profile upsert (C7) -/

theorem updateFirst_names (profiles : List CameraProfile) (name : String)
    (settings : CameraSettingsRequest) :
    (updateFirstProfile profiles name settings).map (fun p => p.name) =
      profiles.map (fun p => p.name) := by
  induction profiles with
  | nil => rfl
  | cons p ps IH =>
    unfold updateFirstProfile
    cases hp : p.name == name
    · simp only [Bool.false_eq_true, if_false, List.map_cons, IH]
    · simp only [if_true, List.map_cons]

theorem countName_eq_names (profiles : List CameraProfile) (n' : String) :
    countName profiles n' =
      ((profiles.map (fun p => p.name)).filter (fun s => s == n')).length := by
  unfold countName
  rw [List.filter_map, List.length_map]
  rfl

theorem countName_updateFirst (profiles : List CameraProfile) (name : String)
    (settings : CameraSettingsRequest) (n' : String) :
    countName (updateFirstProfile profiles name settings) n' = countName profiles n' := by
  rw [countName_eq_names, countName_eq_names, updateFirst_names]

theorem countName_append_single (profiles : List CameraProfile) (q : CameraProfile)
    (n' : String) :
    countName (profiles ++ [q]) n' =
      countName profiles n' + (if q.name == n' then 1 else 0) := by
  unfold countName
  rw [List.filter_append, List.length_append]
  cases hq : q.name == n' <;> simp [List.filter_cons, hq]

theorem any_name_iff_countName (profiles : List CameraProfile) (name : String) :
    profiles.any (fun p => p.name == name) = true ↔ countName profiles name ≠ 0 := by
  rw [List.any_eq_true]
  unfold countName
  constructor
  · rintro ⟨p, hp, hpred⟩ h0
    rw [List.length_eq_zero] at h0
    have hmem : p ∈ List.filter (fun p => p.name == name) profiles :=
      List.mem_filter.mpr ⟨hp, hpred⟩
    rw [h0] at hmem
    exact absurd hmem (List.not_mem_nil p)
  · intro hne
    have hnil : List.filter (fun p => p.name == name) profiles ≠ [] := by
      intro hnil; exact hne (by rw [hnil]; rfl)
    obtain ⟨p, hp⟩ := List.exists_mem_of_ne_nil _ hnil
    have hm := List.mem_filter.mp hp
    exact ⟨p, hm.1, hm.2⟩

theorem countName_zero_no_match (profiles : List CameraProfile) (name : String)
    (h : countName profiles name = 0) :
    ∀ p ∈ profiles, (p.name == name) = false := by
  intro p hp
  cases hq : p.name == name
  · rfl
  · exfalso
    apply (any_name_iff_countName profiles name).mp _ h
    rw [List.any_eq_true]
    exact ⟨p, hp, hq⟩

theorem countName_cons (q : CameraProfile) (qs : List CameraProfile) (n' : String) :
    countName (q :: qs) n' = (if q.name == n' then 1 else 0) + countName qs n' := by
  unfold countName
  rw [List.filter_cons]
  cases hq : q.name == n' <;> simp [hq, Nat.add_comm]

theorem updateFirst_settings_of_at_most_one (profiles : List CameraProfile) (name : String)
    (settings : CameraSettingsRequest) (h : countName profiles name ≤ 1) :
    ∀ p ∈ updateFirstProfile profiles name settings, p.name = name →
      p.settings = settings := by
  induction profiles with
  | nil => intro p hp; simp [updateFirstProfile] at hp
  | cons q qs IH =>
    intro p hp hname
    unfold updateFirstProfile at hp
    cases hq : q.name == name
    · rw [hq] at hp
      simp only [Bool.false_eq_true, if_false, List.mem_cons] at hp
      rcases hp with h1 | h1
      · subst h1
        rw [hname] at hq
        simp at hq
      · have hcount : countName qs name ≤ 1 := by
          rw [countName_cons, hq] at h
          simpa using h
        exact IH hcount p h1 hname
    · rw [hq] at hp
      simp only [if_true, List.mem_cons] at hp
      rcases hp with h1 | h1
      · subst h1; rfl
      · exfalso
        have hz : countName qs name = 0 := by
          rw [countName_cons, hq] at h
          simpa using h
        have := countName_zero_no_match qs name hz p h1
        rw [hname] at this
        simp at this

theorem save_profile_any_true (profiles : List CameraProfile) (name : String)
    (settings : CameraSettingsRequest)
    (ha : profiles.any (fun p => p.name == name) = true) :
    save_profile profiles name settings = updateFirstProfile profiles name settings := by
  unfold save_profile
  rw [ha]
  simp

/-- The operation `save_profile` keeps every name's multiplicity at most 1: starting from a
store with unique names (as every store produced by `save_profile` /
`delete_profile` from an empty file is), it never introduces a duplicate. -/
theorem save_profile_preserves_at_most_one (profiles : List CameraProfile) (name : String)
    (settings : CameraSettingsRequest) (h : ∀ n', countName profiles n' ≤ 1) :
    ∀ n', countName (save_profile profiles name settings) n' ≤ 1 := by
  intro n'
  unfold save_profile
  cases ha : profiles.any (fun p => p.name == name)
  · simp only [Bool.false_eq_true, if_false]
    rw [countName_append_single]
    cases hn : (name == n') <;> simp only [if_true, Bool.false_eq_true, if_false]
    · simpa using h n'
    · have h0 : countName profiles name = 0 := by
        by_contra hne
        have hany := (any_name_iff_countName profiles name).mpr hne
        simp [ha] at hany
      have : name = n' := by simpa using hn
      rw [← this, h0]
  · simp only [if_true]
    rw [countName_updateFirst]
    exact h n'

/-- Claim C7: profile save is an upsert keyed by name. On any store in which
the name occurs at most once (the invariant every store reachable through
`save_profile`/`delete_profile` satisfies), saving a name twice with any two
settings values leaves exactly one profile under that name, and it holds the
settings of the latest save. -/
theorem c7_profile_upsert_by_name (profiles : List CameraProfile) (name : String)
    (s1 s2 : CameraSettingsRequest) (h : countName profiles name ≤ 1) :
    countName (save_profile (save_profile profiles name s1) name s2) name = 1
    ∧ ∀ p ∈ save_profile (save_profile profiles name s1) name s2,
        p.name = name → p.settings = s2 := by
  have h1 : countName (save_profile profiles name s1) name = 1 := by
    unfold save_profile
    cases ha : profiles.any (fun p => p.name == name)
    · simp only [Bool.false_eq_true, if_false]
      have h0 : countName profiles name = 0 := by
        by_contra hne
        have hany := (any_name_iff_countName profiles name).mpr hne
        simp [ha] at hany
      rw [countName_append_single, h0]
      simp
    · simp only [if_true]
      rw [countName_updateFirst]
      have hne := (any_name_iff_countName profiles name).mp ha
      omega
  have ha2 : (save_profile profiles name s1).any (fun p => p.name == name) = true :=
    (any_name_iff_countName _ name).mpr (by rw [h1]; exact one_ne_zero)
  have hsave2 : save_profile (save_profile profiles name s1) name s2 =
      updateFirstProfile (save_profile profiles name s1) name s2 :=
    save_profile_any_true _ name s2 ha2
  constructor
  · rw [hsave2, countName_updateFirst]
    exact h1
  · rw [hsave2]
    exact updateFirst_settings_of_at_most_one _ name s2 h1.le

theorem c7_profile_upsert_by_name_witness :
    countName (save_profile (save_profile [] "studio" exSettingsA) "studio" exSettingsB)
      "studio" = 1
    ∧ ∀ p ∈ save_profile (save_profile [] "studio" exSettingsA) "studio" exSettingsB,
        p.name = "studio" → p.settings = exSettingsB :=
  c7_profile_upsert_by_name [] "studio" exSettingsA exSettingsB (by decide)

/-! ## Persisted settings recorded before dispatch (C9) -/

theorem lookup_setStreamSetting_self (ps : List (String × PersistedPair))
    (camera_id : String) (request : StreamStartRequest) :
    ∃ cs, lookupEntry (setStreamSetting ps camera_id request) camera_id =
      some (some request, cs) := by
  induction ps with
  | nil => exact ⟨none, by simp [setStreamSetting, lookupEntry]⟩
  | cons e rest IH =>
    obtain ⟨k, pair⟩ := e
    unfold setStreamSetting
    by_cases hk : k = camera_id
    · subst hk
      exact ⟨pair.2, by simp [lookupEntry]⟩
    · simp only [hk, if_false]
      obtain ⟨cs, hcs⟩ := IH
      exact ⟨cs, by simp [lookupEntry, hk, hcs]⟩

theorem lookup_setStreamSetting_other (ps : List (String × PersistedPair))
    (k2 camera_id : String) (request : StreamStartRequest) (hne : k2 ≠ camera_id) :
    lookupEntry (setStreamSetting ps k2 request) camera_id =
      lookupEntry ps camera_id := by
  induction ps with
  | nil => simp [setStreamSetting, lookupEntry, hne]
  | cons e rest IH =>
    obtain ⟨k, pair⟩ := e
    unfold setStreamSetting
    by_cases hk : k = k2
    · subst hk
      simp [lookupEntry, hne]
    · simp [lookupEntry, hk, IH]

theorem lookup_setCameraSetting_self (ps : List (String × PersistedPair))
    (camera_id : String) (settings : CameraSettingsRequest) :
    ∃ ss, lookupEntry (setCameraSetting ps camera_id settings) camera_id =
      some (ss, some settings) := by
  induction ps with
  | nil => exact ⟨none, by simp [setCameraSetting, lookupEntry]⟩
  | cons e rest IH =>
    obtain ⟨k, pair⟩ := e
    unfold setCameraSetting
    by_cases hk : k = camera_id
    · subst hk
      exact ⟨pair.1, by simp [lookupEntry]⟩
    · simp only [hk, if_false]
      obtain ⟨ss, hss⟩ := IH
      exact ⟨ss, by simp [lookupEntry, hk, hss]⟩

theorem lookup_setCameraSetting_other (ps : List (String × PersistedPair))
    (k2 camera_id : String) (settings : CameraSettingsRequest) (hne : k2 ≠ camera_id) :
    lookupEntry (setCameraSetting ps k2 settings) camera_id =
      lookupEntry ps camera_id := by
  induction ps with
  | nil => simp [setCameraSetting, lookupEntry, hne]
  | cons e rest IH =>
    obtain ⟨k, pair⟩ := e
    unfold setCameraSetting
    by_cases hk : k = k2
    · subst hk
      simp [lookupEntry, hne]
    · simp [lookupEntry, hk, IH]

theorem foldl_setStreamSetting (request : StreamStartRequest) (camera_id : String) :
    ∀ (ids : List String) (ps : List (String × PersistedPair)),
      (camera_id ∈ ids ∨ ∃ cs, lookupEntry ps camera_id = some (some request, cs)) →
      ∃ cs, lookupEntry
          (ids.foldl (fun acc k => setStreamSetting acc k request) ps) camera_id =
        some (some request, cs) := by
  intro ids
  induction ids with
  | nil =>
    intro ps h
    rcases h with h | h
    · cases h
    · simpa using h
  | cons k ids IH =>
    intro ps h
    rw [List.foldl_cons]
    apply IH
    by_cases hk : k = camera_id
    · subst hk
      exact Or.inr (lookup_setStreamSetting_self ps k request)
    · rcases h with hmem | hlk
      · rcases List.mem_cons.mp hmem with heq | hmem2
        · exact absurd heq.symm hk
        · exact Or.inl hmem2
      · right
        rw [lookup_setStreamSetting_other ps k camera_id request hk]
        exact hlk

theorem foldl_setCameraSetting (settings : CameraSettingsRequest) (camera_id : String) :
    ∀ (ids : List String) (ps : List (String × PersistedPair)),
      (camera_id ∈ ids ∨ ∃ ss, lookupEntry ps camera_id = some (ss, some settings)) →
      ∃ ss, lookupEntry
          (ids.foldl (fun acc k => setCameraSetting acc k settings) ps) camera_id =
        some (ss, some settings) := by
  intro ids
  induction ids with
  | nil =>
    intro ps h
    rcases h with h | h
    · cases h
    · simpa using h
  | cons k ids IH =>
    intro ps h
    rw [List.foldl_cons]
    apply IH
    by_cases hk : k = camera_id
    · subst hk
      exact Or.inr (lookup_setCameraSetting_self ps k settings)
    · rcases h with hmem | hlk
      · rcases List.mem_cons.mp hmem with heq | hmem2
        · exact absurd heq.symm hk
        · exact Or.inl hmem2
      · right
        rw [lookup_setCameraSetting_other ps k camera_id settings hk]
        exact hlk

/-- Claim C9: `group_start_stream` and `group_update_settings` record the
requested settings in the persisted-settings map for every requested
identifier before dispatching — with no check that the identifier is
registered and regardless of whether the per-device operation later fails —
so `get_persisted_settings` afterwards returns the requested stream settings
(resp. camera settings) under every requested id, including ids that never
belonged to a device. -/
theorem c9_group_mutators_record_settings (m : ManagerState) (camera_ids : List String)
    (request : StreamStartRequest) (settings : CameraSettingsRequest)
    (op : Nat → Option String) (crash : Nat → Bool) (camera_id : String)
    (hid : camera_id ∈ camera_ids) :
    (∃ cs, get_persisted_settings
        (group_start_stream m camera_ids request op crash).1 camera_id =
      some (some request, cs))
    ∧ (∃ ss, get_persisted_settings
        (group_update_settings m camera_ids settings op crash).1 camera_id =
      some (ss, some settings)) := by
  constructor
  · exact foldl_setStreamSetting request camera_id camera_ids m.persisted_settings
      (Or.inl hid)
  · exact foldl_setCameraSetting settings camera_id camera_ids m.persisted_settings
      (Or.inl hid)

theorem c9_group_mutators_record_settings_witness :
    (∃ cs, get_persisted_settings
        (group_start_stream exManagerEmpty ["ghost"] exStream (fun _ => none)
          (fun _ => false)).1 "ghost" =
      some (some exStream, cs))
    ∧ (∃ ss, get_persisted_settings
        (group_update_settings exManagerEmpty ["ghost"] exSettingsA (fun _ => none)
          (fun _ => false)).1 "ghost" =
      some (ss, some exSettingsA)) :=
  c9_group_mutators_record_settings exManagerEmpty ["ghost"] exStream exSettingsA
    (fun _ => none) (fun _ => false) "ghost" (List.mem_singleton.mpr rfl)

end AvoloCam
